import Mathlib

/-!
Formal model of the floor-plan layout tool's algorithmic core:

* the coordinate-transform helpers and `checkFit` from `src/utils/scaleUtils.ts`,
* the scale calibrator (`calculateScaleFromLines`, `validateDimensionLines`)
  from the same module,
* the `ScaleInfo` emission of `src/components/ScaleCalibration.tsx`,
* the auto-placement engine (`autoPlaceFixtures`, `findBestPosition`)
  from `src/hooks/useCustomFixtures.ts` (pixel-space variant, lines 86-271).

JavaScript `number` arithmetic is modelled exactly: by `ℚ` for the placement
engine and the pure coordinate transforms (which use only field operations and
comparisons), and by `ℝ` for the calibration layer, whose per-line scales go
through `Math.sqrt`.  Nondeterministic identity generation
(`Date.now()`/`Math.random()` ids) is outside the model: a placed fixture
record keeps the candidate fixture's own fields, exactly as the source's
spread `...fixture` does for everything except the fresh `id` string.
-/

namespace Layout

/-- A location, in pixel or millimeter space depending on context
(`Position` in `types.ts`). -/
structure Position (α : Type) where
  x : α
  y : α
deriving Repr, DecidableEq

/-- A size in millimeters (`Dimension` in `types.ts`). -/
structure Dimension (α : Type) where
  width : α
  height : α
deriving Repr, DecidableEq

/-- Model of `ScaleInfo` from `types.ts`: the calibration reference frame and the
pixels-per-millimeter conversion factor. -/
structure ScaleInfo (α : Type) where
  imageWidth : α
  imageHeight : α
  pixelsPerMillimeter : α
  unit : String
deriving Repr, DecidableEq

/-- Model of `Fixture` from `types.ts`; `width` and `height` are in millimeters.
The optional display-only fields (`color`, `icon`, `isCustom`, `createdAt`,
`group`) are never read by the placement engine and are omitted. -/
structure Fixture where
  id : String
  name : String
  width : ℚ
  height : ℚ
deriving Repr, DecidableEq

/-- Model of `PlacedFixture` from `types.ts`: a fixture plus a position (in calibration
image pixels) and a rotation (0 or 90 degrees). -/
structure PlacedFixture where
  fixture : Fixture
  position : Position ℚ
  rotation : ℕ
deriving Repr, DecidableEq

/-- Model of `PlacementArea` from `types.ts` (the `id` string is never read by the
engine and is omitted); all four fields are in millimeters. -/
structure PlacementArea where
  x : ℚ
  y : ℚ
  width : ℚ
  height : ℚ
deriving Repr, DecidableEq

/-- An entry of the engine's `occupiedSpaces` list: an axis-aligned rectangle
in calibration pixel space. -/
structure Rect where
  x : ℚ
  y : ℚ
  width : ℚ
  height : ℚ
deriving Repr, DecidableEq

/-- Model of `PlacementOptions` from `useCustomFixtures.ts` (the pixel-space engine):
`clearance` in millimeters (the source defaults it to `CLEARANCE_MM = 0`) and
the required `scaleInfo`. -/
structure PlacementOptions where
  clearance : ℚ
  scaleInfo : ScaleInfo ℚ

/-- One orientation option built inside `autoPlaceFixtures`: oriented pixel
width and height plus the rotation tag. -/
structure Orientation where
  width : ℚ
  height : ℚ
  rotation : ℕ

/-- Model of `pixelsToRealUnits` from `scaleUtils.ts`: `pixels / scaleInfo.pixelsPerMillimeter`. -/
def pixelsToRealUnits (pixels : ℚ) (scaleInfo : ScaleInfo ℚ) : ℚ :=
  pixels / scaleInfo.pixelsPerMillimeter

/-- Model of `realUnitsToPixels` from `scaleUtils.ts`: `realUnits * scaleInfo.pixelsPerMillimeter`. -/
def realUnitsToPixels (realUnits : ℚ) (scaleInfo : ScaleInfo ℚ) : ℚ :=
  realUnits * scaleInfo.pixelsPerMillimeter

/-- Model of `checkFit` from `scaleUtils.ts`: converts the fixture size (mm) to pixels
and tests containment of the fixture's rectangle in the image bounds. -/
def checkFit (fixturePos : Position ℚ) (fixtureSize : Dimension ℚ)
    (scaleInfo : ScaleInfo ℚ) : Bool :=
  let fixtureWidthPx := realUnitsToPixels fixtureSize.width scaleInfo
  let fixtureHeightPx := realUnitsToPixels fixtureSize.height scaleInfo
  decide (fixturePos.x ≥ 0) &&
  decide (fixturePos.y ≥ 0) &&
  decide (fixturePos.x + fixtureWidthPx ≤ scaleInfo.imageWidth) &&
  decide (fixturePos.y + fixtureHeightPx ≤ scaleInfo.imageHeight)

/-- The per-rectangle test inside `findBestPosition`'s `occupiedSpaces.some`
callback: the candidate rectangle `(x, y, width, height)` overlaps `occupied`
unless it lies fully to the left/right/above/below of it (touching edges do
not count as overlap). -/
def overlapsB (x y width height : ℚ) (occupied : Rect) : Bool :=
  !(decide (x + width ≤ occupied.x) ||
    decide (x ≥ occupied.x + occupied.width) ||
    decide (y + height ≤ occupied.y) ||
    decide (y ≥ occupied.y + occupied.height))

/-- Here `gridCoordsAux v step n` is `[v, v + step, ..., v + (n-1) * step]`: the
successive values of a loop counter starting at `v`, bumped by `step`, for
`n` iterations. -/
def gridCoordsAux (v step : ℚ) : ℕ → List ℚ
  | 0 => []
  | n + 1 => v :: gridCoordsAux (v + step) step n

/-- The values visited by a source loop
`for (v = start; v + size <= start + len; v += step)`: with `0 < step` these
are `start + k * step` for `k = 0, 1, ...` while `k * step ≤ len - size`,
i.e. for `⌊(len - size) / step⌋ + 1` iterations.  With `size > len` the loop
body never runs; the `0 < step` guard only makes the definition total (both
callers pass a step that is at least 5). -/
def gridCoords (start len size step : ℚ) : List ℚ :=
  if 0 < step ∧ size ≤ len then
    gridCoordsAux start step (Int.toNat ⌊(len - size) / step⌋ + 1)
  else []

/-- One grid pass of `findBestPosition` (`useCustomFixtures.ts`): scan
candidate top-left positions row-major from the usable area's top-left with
the given step, returning the first whose rectangle stays inside the usable
area and overlaps no occupied rectangle.  The inner bounds re-check mirrors
the source's redundant `continue` guard. -/
def findPositionWithStep (width height : ℚ) (usableArea : Rect)
    (occupiedSpaces : List Rect) (step : ℚ) : Option (Position ℚ) :=
  (gridCoords usableArea.y usableArea.height height step).findSome? fun y =>
    (gridCoords usableArea.x usableArea.width width step).findSome? fun x =>
      if x + width > usableArea.x + usableArea.width ∨
          y + height > usableArea.y + usableArea.height then
        none
      else if occupiedSpaces.any fun occupied => overlapsB x y width height occupied then
        none
      else
        some ⟨x, y⟩

/-- Model of `findBestPosition` from `useCustomFixtures.ts`: a coarse grid pass with
adaptive step `max(10, min(100, width / 10))` pixels, then on failure a finer
pass with step `max(5, step / 2)`. -/
def findBestPosition (width height : ℚ) (usableArea : Rect)
    (occupiedSpaces : List Rect) : Option (Position ℚ) :=
  let step := max 10 (min 100 (width / 10))
  match findPositionWithStep width height usableArea occupiedSpaces step with
  | some position => some position
  | none => findPositionWithStep width height usableArea occupiedSpaces (max 5 (step / 2))

/-- The seeding of `occupiedSpaces` in `autoPlaceFixtures`: each existing
fixture contributes the rectangle at its pixel position with its millimeter
footprint converted to pixels (its rotation field is not consulted). -/
def obstacleRects (existingFixtures : List PlacedFixture) (scaleInfo : ScaleInfo ℚ) :
    List Rect :=
  existingFixtures.map fun fixture =>
    ⟨fixture.position.x, fixture.position.y,
      fixture.fixture.width * scaleInfo.pixelsPerMillimeter,
      fixture.fixture.height * scaleInfo.pixelsPerMillimeter⟩

/-- The per-fixture body of `autoPlaceFixtures`' placement loop: build the two
orientation options (unrotated first), skip an orientation that exceeds the
usable area, otherwise grid-search a position; on success return the placed
fixture together with the rectangle pushed onto `occupiedSpaces`. -/
def tryPlaceFixture (scaleInfo : ScaleInfo ℚ) (usableAreaPx : Rect)
    (occupiedSpaces : List Rect) (fixture : Fixture) :
    Option (PlacedFixture × Rect) :=
  let fixtureWidthPx := fixture.width * scaleInfo.pixelsPerMillimeter
  let fixtureHeightPx := fixture.height * scaleInfo.pixelsPerMillimeter
  let orientations : List Orientation :=
    [⟨fixtureWidthPx, fixtureHeightPx, 0⟩, ⟨fixtureHeightPx, fixtureWidthPx, 90⟩]
  orientations.findSome? fun orientation =>
    if orientation.width > usableAreaPx.width ∨ orientation.height > usableAreaPx.height then
      none
    else
      match findBestPosition orientation.width orientation.height usableAreaPx occupiedSpaces with
      | some positionPx =>
          some (⟨fixture, positionPx, orientation.rotation⟩,
            ⟨positionPx.x, positionPx.y, orientation.width, orientation.height⟩)
      | none => none

/-- The `for (const fixture of sortedFixtures)` loop of `autoPlaceFixtures`:
threads the growing `occupiedSpaces` list and collects placements in order. -/
def placeFixturesLoop (scaleInfo : ScaleInfo ℚ) (usableAreaPx : Rect) :
    List Fixture → List Rect → List PlacedFixture × List Rect
  | [], occupiedSpaces => ([], occupiedSpaces)
  | fixture :: rest, occupiedSpaces =>
    match tryPlaceFixture scaleInfo usableAreaPx occupiedSpaces fixture with
    | some (placedFixture, rect) =>
      let result := placeFixturesLoop scaleInfo usableAreaPx rest (occupiedSpaces ++ [rect])
      (placedFixture :: result.1, result.2)
    | none => placeFixturesLoop scaleInfo usableAreaPx rest occupiedSpaces

/-- The descending-by-footprint-area candidate order of `autoPlaceFixtures`:
the source's `sort((a, b) => areaB - areaA)` is a stable sort placing `a`
before `b` exactly when `b.width * b.height ≤ a.width * a.height`, which is
what `mergeSort` with that relation computes. -/
def sortFixturesByAreaDesc (fixtures : List Fixture) : List Fixture :=
  fixtures.mergeSort fun a b => decide (b.width * b.height ≤ a.width * a.height)

/-- Model of `autoPlaceFixtures` from `useCustomFixtures.ts` (pixel-space variant).
The source recomputes `usableAreaPx` inside the fixture loop from loop
invariants only; it is hoisted here. -/
def autoPlaceFixtures (area : PlacementArea) (fixtures : List Fixture)
    (existingFixtures : List PlacedFixture) (options : PlacementOptions) :
    List PlacedFixture :=
  let scaleInfo := options.scaleInfo
  let clearance := options.clearance
  let usableArea : Rect :=
    ⟨area.x + clearance, area.y + clearance,
      area.width - 2 * clearance, area.height - 2 * clearance⟩
  if usableArea.width ≤ 0 ∨ usableArea.height ≤ 0 then [] else
  let sortedFixtures := sortFixturesByAreaDesc fixtures
  let occupiedSpaces := obstacleRects existingFixtures scaleInfo
  let usableAreaPx : Rect :=
    ⟨realUnitsToPixels usableArea.x scaleInfo, realUnitsToPixels usableArea.y scaleInfo,
      realUnitsToPixels usableArea.width scaleInfo, realUnitsToPixels usableArea.height scaleInfo⟩
  (placeFixturesLoop scaleInfo usableAreaPx sortedFixtures occupiedSpaces).1

/-- The occupancy rectangle of a placement the engine returned: the rotation
tag says which way round the pixel footprint was pushed onto
`occupiedSpaces`. -/
def placedRect (scaleInfo : ScaleInfo ℚ) (placed : PlacedFixture) : Rect :=
  if placed.rotation = 90 then
    ⟨placed.position.x, placed.position.y,
      placed.fixture.height * scaleInfo.pixelsPerMillimeter,
      placed.fixture.width * scaleInfo.pixelsPerMillimeter⟩
  else
    ⟨placed.position.x, placed.position.y,
      placed.fixture.width * scaleInfo.pixelsPerMillimeter,
      placed.fixture.height * scaleInfo.pixelsPerMillimeter⟩

/-- Overlap test between two occupancy rectangles (the engine's test with the
first rectangle's fields spelled out). -/
def rectOverlaps (a b : Rect) : Bool :=
  overlapsB a.x a.y a.width a.height b

/-- The final occupancy set for one engine invocation, as the specification
describes it: the obstacle rectangles of the existing fixtures together with
the rectangles of the newly returned placements. -/
def finalOccupancy (area : PlacementArea) (fixtures : List Fixture)
    (existingFixtures : List PlacedFixture) (options : PlacementOptions) :
    List Rect :=
  obstacleRects existingFixtures options.scaleInfo ++
    (autoPlaceFixtures area fixtures existingFixtures options).map
      (placedRect options.scaleInfo)

/-- Model of `DimensionLine` from `types.ts`: a user-drawn reference line in displayed
pixel space with its real length in millimeters and the displayed image
dimensions at creation time.  The `id` string and the cached `pixelLength`
are never read by the calibration functions modelled here (they recompute the
pixel length from the endpoints) and are omitted. -/
structure DimensionLine where
  start : Position ℝ
  «end» : Position ℝ
  realLength : ℝ
  imageWidth : ℝ
  imageHeight : ℝ

/-- Model of `calculateLineLength` from `scaleUtils.ts`: Euclidean distance. -/
noncomputable def calculateLineLength (start «end» : Position ℝ) : ℝ :=
  Real.sqrt ((«end».x - start.x) ^ 2 + («end».y - start.y) ^ 2)

/-- The per-line scale computed (identically) inside `calculateScaleFromLines`
and `validateDimensionLines`: `sqrt(dx² + dy²) / realLength`. -/
noncomputable def lineScale (line : DimensionLine) : ℝ :=
  Real.sqrt ((line.«end».x - line.start.x) ^ 2 + (line.«end».y - line.start.y) ^ 2) /
    line.realLength

/-- Model of `calculateScaleFromLines` from `scaleUtils.ts`: `null` on an empty list,
otherwise the arithmetic mean (a left-fold sum divided by the length, as in
`scales.reduce((sum, s) => sum + s, 0) / scales.length`) of the per-line
scales. -/
noncomputable def calculateScaleFromLines (dimensionLines : List DimensionLine) :
    Option ℝ :=
  if dimensionLines.length = 0 then none
  else
    let scales := dimensionLines.map lineScale
    some (scales.foldl (· + ·) 0 / (scales.length : ℝ))

/-- The shape of the human-readable `message` strings built by
`validateDimensionLines`.  String formatting (`toFixed(1)`) is not modelled;
each constructor records which format string was used and the numeric data
interpolated into it.  `lineIndex` is the zero-based index (the rendered text
shows `lineIndex + 1`). -/
inductive ValidationMessage where
  | lineIncorrectDifference (lineIndex : ℕ) (pct : ℝ)
  | linesConsistentDifference (pct : ℝ)
  | linesConsistent
  | lineIncorrectDeviation (lineIndex : ℕ) (pct : ℝ)
  | allLinesConsistentDeviation (pct : ℝ)
  | allLinesConsistent

/-- The result record of `validateDimensionLines`. -/
structure ValidationResult where
  isValid : Bool
  inconsistentLineIndex : Option ℕ
  mismatchPercent : Option ℝ
  message : Option ValidationMessage

/-- Model of `validateDimensionLines` from `scaleUtils.ts`.  The source branches on
`length < 2`, `length === 2` and the remainder; the list patterns below are
those three cases.  In the multi-line branch, `Math.max(...deviations)` is
the maximum of the (nonempty) deviations list and
`deviations.indexOf(maxDeviation)` is the first index holding that value. -/
noncomputable def validateDimensionLines : List DimensionLine → ValidationResult
  | [] => ⟨true, none, none, none⟩
  | [_] => ⟨true, none, none, none⟩
  | [line1, line2] =>
    let scale1 := lineScale line1
    let scale2 := lineScale line2
    let avgScale := (scale1 + scale2) / 2
    let diff := |scale1 - scale2|
    let mismatchPercent := diff / avgScale * 100
    if mismatchPercent > 5 then
      let dev1 := |scale1 - avgScale|
      let dev2 := |scale2 - avgScale|
      let inconsistentIndex : ℕ := if dev1 > dev2 then 0 else 1
      ⟨false, some inconsistentIndex, some mismatchPercent,
        some (.lineIncorrectDifference inconsistentIndex mismatchPercent)⟩
    else
      ⟨true, none, some mismatchPercent,
        some (if mismatchPercent > 1 then .linesConsistentDifference mismatchPercent
          else .linesConsistent)⟩
  | dimensionLines =>
    let lineScales := dimensionLines.map lineScale
    let avgScale := lineScales.foldl (· + ·) 0 / (lineScales.length : ℝ)
    let deviations := lineScales.map fun scale => |scale - avgScale|
    let maxDeviation := deviations.max?.getD 0
    let maxDeviationIndex := deviations.indexOf maxDeviation
    let maxMismatchPercent := maxDeviation / avgScale * 100
    if maxMismatchPercent > 10 then
      ⟨false, some maxDeviationIndex, some maxMismatchPercent,
        some (.lineIncorrectDeviation maxDeviationIndex maxMismatchPercent)⟩
    else
      ⟨true, none, some maxMismatchPercent,
        some (if maxMismatchPercent > 1 then .allLinesConsistentDeviation maxMismatchPercent
          else .allLinesConsistent)⟩

/-- The unit literal the calibrator emits. -/
def millimetersUnit : String := "millimeters"

/-- The `ScaleInfo`-emitting effect of `ScaleCalibration.tsx` (its
`React.useEffect`): when `calculateScaleFromLines` is truthy (non-null and
nonzero) and the line list is nonempty, emit a `ScaleInfo` whose reference
dimensions come from the most recently added line, except that a falsy
(zero) recorded dimension falls back to the component's own `imageWidth` /
`imageHeight` props (the source's `lastLine?.imageWidth || imageWidth`). -/
noncomputable def emitScaleInfo (imageWidth imageHeight : ℝ)
    (dimensionLines : List DimensionLine) : Option (ScaleInfo ℝ) :=
  match calculateScaleFromLines dimensionLines with
  | none => none
  | some pixelsPerMillimeter =>
    if pixelsPerMillimeter ≠ 0 ∧ 0 < dimensionLines.length then
      match dimensionLines.getLast? with
      | none => none
      | some lastLine =>
        some ⟨(if lastLine.imageWidth = 0 then imageWidth else lastLine.imageWidth),
          (if lastLine.imageHeight = 0 then imageHeight else lastLine.imageHeight),
          pixelsPerMillimeter, millimetersUnit⟩
    else none

/-- Spec-side formulation of the average scale ("for each line,
`scale_i = pixelLength_i / realLength_i`; overall scale = arithmetic mean"),
with the pixel length written as the Euclidean distance of the endpoints; to
be compared with `calculateScaleFromLines`. -/
noncomputable def specAverageScale (dimensionLines : List DimensionLine) : ℝ :=
  (dimensionLines.map fun line =>
      calculateLineLength line.start line.«end» / line.realLength).sum /
    (dimensionLines.length : ℝ)

/-- Spec-side two-line mismatch:
`|s1 - s2| / ((s1 + s2) / 2) * 100`. -/
noncomputable abbrev pairMismatchPercent (line1 line2 : DimensionLine) : ℝ :=
  |lineScale line1 - lineScale line2| / ((lineScale line1 + lineScale line2) / 2) * 100

/-- Spec-side mean of the per-line scales for the multi-line (more than two)
validation branch. -/
noncomputable abbrev multiAvgScale (dimensionLines : List DimensionLine) : ℝ :=
  (dimensionLines.map lineScale).sum / (dimensionLines.length : ℝ)

/-- Spec-side per-line absolute deviations from the mean scale. -/
noncomputable abbrev multiDeviations (dimensionLines : List DimensionLine) : List ℝ :=
  (dimensionLines.map lineScale).map fun scale => |scale - multiAvgScale dimensionLines|

/-- Spec-side maximum deviation (the deviations list is nonempty whenever the
multi-line branch runs, so the `getD 0` default is never consulted there). -/
noncomputable abbrev multiMaxDeviation (dimensionLines : List DimensionLine) : ℝ :=
  (multiDeviations dimensionLines).max?.getD 0

/-- Spec-side flagged index for the multi-line branch: the first index whose
deviation equals the maximum (JavaScript `indexOf` semantics). -/
noncomputable abbrev multiMaxIndex (dimensionLines : List DimensionLine) : ℕ :=
  (multiDeviations dimensionLines).indexOf (multiMaxDeviation dimensionLines)

/-- Example reference line of 50 px drawn for 100 mm (scale 1/2). -/
noncomputable def exLineA : DimensionLine := ⟨⟨0, 0⟩, ⟨50, 0⟩, 100, 800, 600⟩

/-- Example reference line of 150 px drawn for 100 mm (scale 3/2). -/
noncomputable def exLineB : DimensionLine := ⟨⟨0, 0⟩, ⟨150, 0⟩, 100, 800, 600⟩

/-- Example reference line of 100 px drawn for 100 mm (scale 1). -/
noncomputable def exLineC : DimensionLine := ⟨⟨0, 0⟩, ⟨100, 0⟩, 100, 800, 600⟩

/-! ## Theorems -/

/-- Claim C7: for every `mm > 0` and every scale with
`pixelsPerMillimeter > 0`, converting millimeters to pixels and back is the
identity, exactly, over exact rational arithmetic:
`pixelsToRealUnits (realUnitsToPixels mm scale) scale = mm`. -/
theorem pixels_real_round_trip (mm : ℚ) (scaleInfo : ScaleInfo ℚ)
    (_hmm : 0 < mm) (hppm : 0 < scaleInfo.pixelsPerMillimeter) :
    pixelsToRealUnits (realUnitsToPixels mm scaleInfo) scaleInfo = mm := by
  unfold pixelsToRealUnits realUnitsToPixels
  exact mul_div_cancel_right₀ mm (ne_of_gt hppm)

/-- Witness for C7: 25 mm at 2 px/mm round-trips to 25 mm. -/
theorem pixels_real_round_trip_witness :
    pixelsToRealUnits (realUnitsToPixels 25 ⟨800, 600, 2, millimetersUnit⟩)
      ⟨800, 600, 2, millimetersUnit⟩ = 25 :=
  pixels_real_round_trip 25 ⟨800, 600, 2, millimetersUnit⟩ (by norm_num) (by norm_num)

/-- Claim C6: `checkFit` returns `true` exactly when the position is
nonnegative and the pixel-converted fixture rectangle lies within the image
bounds; the exact-fit fixture at the origin fits, and moving it one pixel
past any edge (in any of the four directions) does not. -/
theorem checkFit_spec (scaleInfo : ScaleInfo ℚ) (hppm : 0 < scaleInfo.pixelsPerMillimeter) :
    (∀ (pos : Position ℚ) (size : Dimension ℚ),
      checkFit pos size scaleInfo = true ↔
        0 ≤ pos.x ∧ 0 ≤ pos.y ∧
        pos.x + size.width * scaleInfo.pixelsPerMillimeter ≤ scaleInfo.imageWidth ∧
        pos.y + size.height * scaleInfo.pixelsPerMillimeter ≤ scaleInfo.imageHeight) ∧
    checkFit ⟨0, 0⟩
      ⟨scaleInfo.imageWidth / scaleInfo.pixelsPerMillimeter,
        scaleInfo.imageHeight / scaleInfo.pixelsPerMillimeter⟩ scaleInfo = true ∧
    checkFit ⟨1, 0⟩
      ⟨scaleInfo.imageWidth / scaleInfo.pixelsPerMillimeter,
        scaleInfo.imageHeight / scaleInfo.pixelsPerMillimeter⟩ scaleInfo = false ∧
    checkFit ⟨0, 1⟩
      ⟨scaleInfo.imageWidth / scaleInfo.pixelsPerMillimeter,
        scaleInfo.imageHeight / scaleInfo.pixelsPerMillimeter⟩ scaleInfo = false ∧
    checkFit ⟨-1, 0⟩
      ⟨scaleInfo.imageWidth / scaleInfo.pixelsPerMillimeter,
        scaleInfo.imageHeight / scaleInfo.pixelsPerMillimeter⟩ scaleInfo = false ∧
    checkFit ⟨0, -1⟩
      ⟨scaleInfo.imageWidth / scaleInfo.pixelsPerMillimeter,
        scaleInfo.imageHeight / scaleInfo.pixelsPerMillimeter⟩ scaleInfo = false := by
  have hne := ne_of_gt hppm
  have hW : scaleInfo.imageWidth / scaleInfo.pixelsPerMillimeter *
      scaleInfo.pixelsPerMillimeter = scaleInfo.imageWidth := div_mul_cancel₀ _ hne
  have hH : scaleInfo.imageHeight / scaleInfo.pixelsPerMillimeter *
      scaleInfo.pixelsPerMillimeter = scaleInfo.imageHeight := div_mul_cancel₀ _ hne
  have hiff : ∀ (pos : Position ℚ) (size : Dimension ℚ),
      checkFit pos size scaleInfo = true ↔
        0 ≤ pos.x ∧ 0 ≤ pos.y ∧
        pos.x + size.width * scaleInfo.pixelsPerMillimeter ≤ scaleInfo.imageWidth ∧
        pos.y + size.height * scaleInfo.pixelsPerMillimeter ≤ scaleInfo.imageHeight := by
    intro pos size
    simp [checkFit, realUnitsToPixels, ge_iff_le, and_assoc]
  refine ⟨hiff, ?_, ?_, ?_, ?_, ?_⟩
  · rw [hiff]
    refine ⟨le_refl 0, le_refl 0, ?_, ?_⟩ <;> simp [hW, hH]
  all_goals rw [Bool.eq_false_iff]; intro htrue; rw [hiff] at htrue
  · obtain ⟨-, -, h3, -⟩ := htrue
    rw [hW] at h3
    norm_num at h3
  · obtain ⟨-, -, -, h4⟩ := htrue
    rw [hH] at h4
    norm_num at h4
  · obtain ⟨h1, -, -, -⟩ := htrue
    norm_num at h1
  · obtain ⟨-, h2, -, -⟩ := htrue
    norm_num at h2

/-- Witness for C6 at an 800×600 image with 2 px/mm: the 400×300 mm exact-fit
fixture fits at the origin and fails one pixel to the right. -/
theorem checkFit_spec_witness :
    checkFit ⟨0, 0⟩ ⟨800 / 2, 600 / 2⟩ ⟨800, 600, 2, millimetersUnit⟩ = true ∧
    checkFit ⟨1, 0⟩ ⟨800 / 2, 600 / 2⟩ ⟨800, 600, 2, millimetersUnit⟩ = false :=
  ⟨(checkFit_spec ⟨800, 600, 2, millimetersUnit⟩ (by norm_num)).2.1,
    (checkFit_spec ⟨800, 600, 2, millimetersUnit⟩ (by norm_num)).2.2.1⟩

/-- Claim C2: when the clearance-inset usable width or height is nonpositive,
`autoPlaceFixtures` returns the empty list (and in particular does not
fail). -/
theorem autoPlaceFixtures_area_too_small (area : PlacementArea) (fixtures : List Fixture)
    (existingFixtures : List PlacedFixture) (options : PlacementOptions)
    (h : area.width - 2 * options.clearance ≤ 0 ∨ area.height - 2 * options.clearance ≤ 0) :
    autoPlaceFixtures area fixtures existingFixtures options = [] := by
  unfold autoPlaceFixtures
  dsimp only
  rw [if_pos h]

/-- Witness for C2: a 500×500 mm area with 1000 mm clearance yields the empty
placement list. -/
theorem autoPlaceFixtures_area_too_small_witness :
    autoPlaceFixtures ⟨0, 0, 500, 500⟩ [] [] ⟨1000, ⟨800, 600, 2, millimetersUnit⟩⟩ = [] :=
  autoPlaceFixtures_area_too_small _ _ _ _ (Or.inl (by norm_num))

/-- Unfolding of the engine's pairwise overlap test into the four separating
half-plane conditions. -/
theorem rectOverlaps_eq_false_iff (a b : Rect) :
    rectOverlaps a b = false ↔
      a.x + a.width ≤ b.x ∨ b.x + b.width ≤ a.x ∨
      a.y + a.height ≤ b.y ∨ b.y + b.height ≤ a.y := by
  simp only [rectOverlaps, overlapsB, Bool.not_eq_false', Bool.or_eq_true,
    decide_eq_true_eq, ge_iff_le, or_assoc]

/-- Non-overlap of rectangles is symmetric. -/
theorem rectOverlaps_false_symm (a b : Rect) (h : rectOverlaps a b = false) :
    rectOverlaps b a = false := by
  rw [rectOverlaps_eq_false_iff] at h ⊢
  tauto

/-- A position returned by one grid pass overlaps none of the occupied
rectangles. -/
theorem findPositionWithStep_no_overlap {width height : ℚ} {usableArea : Rect}
    {occupiedSpaces : List Rect} {step : ℚ} {p : Position ℚ}
    (hp : findPositionWithStep width height usableArea occupiedSpaces step = some p) :
    ∀ r ∈ occupiedSpaces, overlapsB p.x p.y width height r = false := by
  unfold findPositionWithStep at hp
  obtain ⟨y, -, hy⟩ := List.exists_of_findSome?_eq_some hp
  obtain ⟨x, -, hx⟩ := List.exists_of_findSome?_eq_some hy
  split at hx
  · simp at hx
  · split at hx
    · simp at hx
    · rename_i hany
      obtain rfl := Option.some.inj hx
      simp only [List.any_eq_true, not_exists, not_and, Bool.not_eq_true] at hany
      intro r hr
      exact hany r hr

/-- A position returned by `findBestPosition` (either pass) overlaps none of
the occupied rectangles. -/
theorem findBestPosition_no_overlap {width height : ℚ} {usableArea : Rect}
    {occupiedSpaces : List Rect} {p : Position ℚ}
    (hp : findBestPosition width height usableArea occupiedSpaces = some p) :
    ∀ r ∈ occupiedSpaces, overlapsB p.x p.y width height r = false := by
  unfold findBestPosition at hp
  dsimp only at hp
  split at hp
  · rename_i position heq
    obtain rfl := Option.some.inj hp
    exact findPositionWithStep_no_overlap heq
  · exact findPositionWithStep_no_overlap hp

/-- A successful `tryPlaceFixture` returns exactly the occupancy rectangle of
its placement, and that rectangle overlaps no already-occupied rectangle. -/
theorem tryPlaceFixture_some {scaleInfo : ScaleInfo ℚ} {usableAreaPx : Rect}
    {occupiedSpaces : List Rect} {fixture : Fixture} {placed : PlacedFixture} {rect : Rect}
    (h : tryPlaceFixture scaleInfo usableAreaPx occupiedSpaces fixture = some (placed, rect)) :
    rect = placedRect scaleInfo placed ∧ ∀ r ∈ occupiedSpaces, rectOverlaps rect r = false := by
  unfold tryPlaceFixture at h
  dsimp only at h
  obtain ⟨o, ho, hbody⟩ := List.exists_of_findSome?_eq_some h
  simp only [List.mem_cons, List.not_mem_nil, or_false] at ho
  split at hbody
  · simp at hbody
  · split at hbody
    · rename_i positionPx heq
      simp only [Option.some.injEq, Prod.mk.injEq] at hbody
      obtain ⟨rfl, rfl⟩ := hbody
      constructor
      · rcases ho with rfl | rfl
        · simp [placedRect]
        · simp [placedRect]
      · intro r hr
        have hno := findBestPosition_no_overlap heq r hr
        simpa [rectOverlaps] using hno
    · simp at hbody

/-- The occupancy list threaded through the placement loop is the initial one
followed by the rectangles of the placements produced, in order. -/
theorem placeFixturesLoop_occupancy (scaleInfo : ScaleInfo ℚ) (usableAreaPx : Rect) :
    ∀ (fixtures : List Fixture) (occupiedSpaces : List Rect),
      (placeFixturesLoop scaleInfo usableAreaPx fixtures occupiedSpaces).2 =
        occupiedSpaces ++
          ((placeFixturesLoop scaleInfo usableAreaPx fixtures occupiedSpaces).1).map
            (placedRect scaleInfo)
  | [], occupiedSpaces => by simp [placeFixturesLoop]
  | fixture :: rest, occupiedSpaces => by
    unfold placeFixturesLoop
    cases h : tryPlaceFixture scaleInfo usableAreaPx occupiedSpaces fixture with
    | none => simpa using placeFixturesLoop_occupancy scaleInfo usableAreaPx rest occupiedSpaces
    | some pr =>
      obtain ⟨pf, r⟩ := pr
      dsimp only
      rw [placeFixturesLoop_occupancy scaleInfo usableAreaPx rest (occupiedSpaces ++ [r]),
        (tryPlaceFixture_some h).1]
      simp

/-- The placement loop preserves pairwise non-overlap of the occupancy
list. -/
theorem placeFixturesLoop_pairwise (scaleInfo : ScaleInfo ℚ) (usableAreaPx : Rect) :
    ∀ (fixtures : List Fixture) (occupiedSpaces : List Rect),
      occupiedSpaces.Pairwise (fun a b => rectOverlaps a b = false) →
      ((placeFixturesLoop scaleInfo usableAreaPx fixtures occupiedSpaces).2).Pairwise
        (fun a b => rectOverlaps a b = false)
  | [], occupiedSpaces, hocc => by simpa [placeFixturesLoop] using hocc
  | fixture :: rest, occupiedSpaces, hocc => by
    unfold placeFixturesLoop
    cases h : tryPlaceFixture scaleInfo usableAreaPx occupiedSpaces fixture with
    | none => exact placeFixturesLoop_pairwise scaleInfo usableAreaPx rest occupiedSpaces hocc
    | some pr =>
      obtain ⟨pf, r⟩ := pr
      dsimp only
      apply placeFixturesLoop_pairwise scaleInfo usableAreaPx rest (occupiedSpaces ++ [r])
      rw [List.pairwise_append]
      refine ⟨hocc, by simp, ?_⟩
      intro a ha b hb
      rw [List.mem_singleton] at hb
      subst hb
      exact rectOverlaps_false_symm _ _ ((tryPlaceFixture_some h).2 a ha)

/-- Claim C1 (amended): provided the obstacle rectangles of the existing
fixtures are already pairwise non-overlapping, the final occupancy set of an
`autoPlaceFixtures` invocation — those obstacle rectangles together with the
rectangles of the returned placements — is pairwise non-overlapping; in
particular no returned placement overlaps any obstacle rectangle or any
other returned placement. -/
theorem autoPlaceFixtures_no_overlap (area : PlacementArea) (fixtures : List Fixture)
    (existingFixtures : List PlacedFixture) (options : PlacementOptions)
    (hobs : (obstacleRects existingFixtures options.scaleInfo).Pairwise
      (fun a b => rectOverlaps a b = false)) :
    (finalOccupancy area fixtures existingFixtures options).Pairwise
      (fun a b => rectOverlaps a b = false) := by
  unfold finalOccupancy autoPlaceFixtures
  dsimp only
  split
  · simpa using hobs
  · rw [← placeFixturesLoop_occupancy]
    exact placeFixturesLoop_pairwise _ _ _ _ hobs

/-- Witness for C1 at a concrete invocation with one (trivially
non-overlapping) obstacle. -/
theorem autoPlaceFixtures_no_overlap_witness :
    (finalOccupancy ⟨0, 0, 1000, 1000⟩ []
        [⟨⟨"e1", "table", 100, 100⟩, ⟨0, 0⟩, 0⟩]
        ⟨0, ⟨1000, 1000, 1, millimetersUnit⟩⟩).Pairwise
      (fun a b => rectOverlaps a b = false) :=
  autoPlaceFixtures_no_overlap _ _ _ _ (by simp [obstacleRects])

/-- Counterexample to C1 as stated: when the caller passes two existing
fixtures whose rectangles already intersect, the final occupancy set contains
a pair of distinct intersecting rectangles (the engine never re-checks the
obstacles against each other). -/
theorem autoPlaceFixtures_no_overlap_counterexample :
    finalOccupancy ⟨0, 0, 1000, 1000⟩ []
        [⟨⟨"e1", "table", 100, 100⟩, ⟨0, 0⟩, 0⟩, ⟨⟨"e2", "table", 100, 100⟩, ⟨50, 50⟩, 0⟩]
        ⟨0, ⟨1000, 1000, 1, millimetersUnit⟩⟩ =
      [⟨0, 0, 100, 100⟩, ⟨50, 50, 100, 100⟩] ∧
    rectOverlaps ⟨0, 0, 100, 100⟩ ⟨50, 50, 100, 100⟩ = true ∧
    (⟨0, 0, 100, 100⟩ : Rect) ≠ ⟨50, 50, 100, 100⟩ := by
  refine ⟨?_, ?_, ?_⟩
  · unfold finalOccupancy autoPlaceFixtures
    dsimp only
    rw [if_neg (by norm_num)]
    simp [sortFixturesByAreaDesc, placeFixturesLoop, obstacleRects]
  · simp [rectOverlaps, overlapsB]
    norm_num
  · simp only [ne_eq, Rect.mk.injEq]
    norm_num

/-- Claim C5: candidates are attempted in descending footprint-area order
under a stable sort (any already-descending sublist of the input, in
particular any pair of equal-area fixtures in input order, survives as a
sublist of the attempt order); for each candidate the unrotated orientation
is tried first and, when it admits a position, the rotated one is not tried;
an orientation whose width or height exceeds the usable area is skipped, so
a fixture whose unrotated orientation is skipped while the rotated one fits
at some position is placed exactly in the rotated orientation, and any
placement of a fixture whose unrotated width exceeds the usable width
carries rotation 90. -/
theorem autoPlaceFixtures_order_spec :
    (∀ fixtures : List Fixture,
      (sortFixturesByAreaDesc fixtures).Pairwise
        (fun a b => b.width * b.height ≤ a.width * a.height)) ∧
    (∀ (fixtures sub : List Fixture),
      sub.Sublist fixtures →
      sub.Pairwise (fun a b => b.width * b.height ≤ a.width * a.height) →
      sub.Sublist (sortFixturesByAreaDesc fixtures)) ∧
    (∀ (scaleInfo : ScaleInfo ℚ) (usableAreaPx : Rect) (occupiedSpaces : List Rect)
        (fixture : Fixture) (p : Position ℚ),
      ¬(fixture.width * scaleInfo.pixelsPerMillimeter > usableAreaPx.width ∨
          fixture.height * scaleInfo.pixelsPerMillimeter > usableAreaPx.height) →
      findBestPosition (fixture.width * scaleInfo.pixelsPerMillimeter)
          (fixture.height * scaleInfo.pixelsPerMillimeter) usableAreaPx occupiedSpaces =
        some p →
      tryPlaceFixture scaleInfo usableAreaPx occupiedSpaces fixture =
        some (⟨fixture, p, 0⟩,
          ⟨p.x, p.y, fixture.width * scaleInfo.pixelsPerMillimeter,
            fixture.height * scaleInfo.pixelsPerMillimeter⟩)) ∧
    (∀ (scaleInfo : ScaleInfo ℚ) (usableAreaPx : Rect) (occupiedSpaces : List Rect)
        (fixture : Fixture) (p : Position ℚ),
      (fixture.width * scaleInfo.pixelsPerMillimeter > usableAreaPx.width ∨
          fixture.height * scaleInfo.pixelsPerMillimeter > usableAreaPx.height) →
      ¬(fixture.height * scaleInfo.pixelsPerMillimeter > usableAreaPx.width ∨
          fixture.width * scaleInfo.pixelsPerMillimeter > usableAreaPx.height) →
      findBestPosition (fixture.height * scaleInfo.pixelsPerMillimeter)
          (fixture.width * scaleInfo.pixelsPerMillimeter) usableAreaPx occupiedSpaces =
        some p →
      tryPlaceFixture scaleInfo usableAreaPx occupiedSpaces fixture =
        some (⟨fixture, p, 90⟩,
          ⟨p.x, p.y, fixture.height * scaleInfo.pixelsPerMillimeter,
            fixture.width * scaleInfo.pixelsPerMillimeter⟩)) ∧
    (∀ (scaleInfo : ScaleInfo ℚ) (usableAreaPx : Rect) (occupiedSpaces : List Rect)
        (fixture : Fixture) (placed : PlacedFixture) (rect : Rect),
      fixture.width * scaleInfo.pixelsPerMillimeter > usableAreaPx.width →
      tryPlaceFixture scaleInfo usableAreaPx occupiedSpaces fixture = some (placed, rect) →
      placed.rotation = 90) := by
  refine ⟨?_, ?_, ?_, ?_, ?_⟩
  · intro fixtures
    unfold sortFixturesByAreaDesc
    refine List.Pairwise.imp (fun h => by simpa using h)
      (List.sorted_mergeSort ?_ ?_ fixtures)
    · intro a b c hab hbc
      simp only [decide_eq_true_eq] at hab hbc ⊢
      exact le_trans hbc hab
    · intro a b
      simp only [Bool.or_eq_true, decide_eq_true_eq]
      exact le_total _ _
  · intro fixtures sub hsub hpair
    unfold sortFixturesByAreaDesc
    refine List.sublist_mergeSort ?_ ?_
      (List.Pairwise.imp (fun h => by simpa using h) hpair) hsub
    · intro a b c hab hbc
      simp only [decide_eq_true_eq] at hab hbc ⊢
      exact le_trans hbc hab
    · intro a b
      simp only [Bool.or_eq_true, decide_eq_true_eq]
      exact le_total _ _
  · intro scaleInfo usableAreaPx occupiedSpaces fixture p hskip hfind
    unfold tryPlaceFixture
    rw [List.findSome?_cons]
    dsimp only
    rw [if_neg hskip, hfind]
  · intro scaleInfo usableAreaPx occupiedSpaces fixture p hskip0 hskip90 hfind
    unfold tryPlaceFixture
    rw [List.findSome?_cons]
    dsimp only
    rw [if_pos hskip0]
    rw [List.findSome?_cons]
    rw [if_neg hskip90, hfind]
  · intro scaleInfo usableAreaPx occupiedSpaces fixture placed rect hw h
    unfold tryPlaceFixture at h
    rw [List.findSome?_cons] at h
    dsimp only at h
    rw [if_pos (Or.inl hw)] at h
    dsimp only at h
    rw [List.findSome?_cons] at h
    split at h
    · rename_i b heq
      obtain rfl := Option.some.inj h
      split at heq
      · simp at heq
      · split at heq
        · rename_i p hfp
          simp only [Option.some.injEq, Prod.mk.injEq] at heq
          obtain ⟨h1, -⟩ := heq
          rw [← h1]
        · simp at heq
    · simp at h

/-- Witness for C5: equal-area fixtures keep their input order around a
larger fixture, and a 200×50 mm fixture in a 100×300 px usable area (1 px/mm,
no obstacles) is placed at the origin rotated. -/
theorem autoPlaceFixtures_order_spec_witness :
    [⟨"b", "chair", 40, 40⟩, ⟨"c", "stool", 40, 40⟩].Sublist
      (sortFixturesByAreaDesc
        [⟨"b", "chair", 40, 40⟩, ⟨"a", "sofa", 200, 100⟩, ⟨"c", "stool", 40, 40⟩]) ∧
    tryPlaceFixture ⟨1000, 1000, 1, millimetersUnit⟩ ⟨0, 0, 100, 300⟩ []
        ⟨"s", "shelf", 200, 50⟩ =
      some (⟨⟨"s", "shelf", 200, 50⟩, ⟨0, 0⟩, 90⟩, ⟨0, 0, 50, 200⟩) := by
  constructor
  · exact autoPlaceFixtures_order_spec.2.1 _ _
      (List.Sublist.cons₂ _ (List.Sublist.cons _ (List.Sublist.refl _)))
      (by norm_num [List.pairwise_cons])
  · have hstep : max 10 (min 100 ((200:ℚ) * 1 * 1 / 10)) = 20 := by
      rw [show (200:ℚ) * 1 * 1 / 10 = 20 by norm_num]
      rw [min_eq_right (by norm_num), max_eq_right (by norm_num)]
    have hfind : findBestPosition ((50:ℚ) * 1) ((200:ℚ) * 1) ⟨0, 0, 100, 300⟩ [] =
        some ⟨0, 0⟩ := by
      have hstep50 : max 10 (min 100 ((50:ℚ) * 1 / 10)) = 10 := by
        rw [show (50:ℚ) * 1 / 10 = 5 by norm_num]
        rw [min_eq_right (by norm_num), max_eq_left (by norm_num)]
      have hgy : gridCoords (0:ℚ) 300 ((200:ℚ) * 1) 10 =
          0 :: gridCoordsAux (0 + 10) 10 (Int.toNat ⌊((300:ℚ) - 200 * 1) / 10⌋) := by
        rw [gridCoords, if_pos ⟨by norm_num, by norm_num⟩]
        rfl
      have hgx : gridCoords (0:ℚ) 100 ((50:ℚ) * 1) 10 =
          0 :: gridCoordsAux (0 + 10) 10 (Int.toNat ⌊((100:ℚ) - 50 * 1) / 10⌋) := by
        rw [gridCoords, if_pos ⟨by norm_num, by norm_num⟩]
        rfl
      have hpass : findPositionWithStep ((50:ℚ) * 1) ((200:ℚ) * 1) ⟨0, 0, 100, 300⟩ [] 10 =
          some ⟨0, 0⟩ := by
        unfold findPositionWithStep
        rw [hgy, List.findSome?_cons]
        dsimp only
        rw [hgx, List.findSome?_cons]
        rw [if_neg (by norm_num)]
        simp
      unfold findBestPosition
      dsimp only
      rw [hstep50, hpass]
    have h := autoPlaceFixtures_order_spec.2.2.2.1 ⟨1000, 1000, 1, millimetersUnit⟩
      ⟨0, 0, 100, 300⟩ [] ⟨"s", "shelf", 200, 50⟩ ⟨0, 0⟩
      (Or.inl (by norm_num)) (by norm_num) hfind
    rw [h]
    norm_num

/-- Evaluating a square root at a concrete perfect square. -/
theorem sqrt_eval (a d : ℝ) (hd : 0 ≤ d) (h : a = d ^ 2) : Real.sqrt a = d := by
  rw [h, Real.sqrt_sq hd]

/-- Computing a concrete line scale: if the squared endpoint differences sum
to `d ^ 2` with `0 ≤ d`, the line's scale is `d / realLength`. -/
theorem lineScale_eval (line : DimensionLine) (d : ℝ) (hd : 0 ≤ d)
    (h : (line.«end».x - line.start.x) ^ 2 + (line.«end».y - line.start.y) ^ 2 = d ^ 2) :
    lineScale line = d / line.realLength := by
  unfold lineScale
  rw [h, Real.sqrt_sq hd]

/-- Claim C8: `calculateScaleFromLines` is `none` exactly on the empty list,
and on a nonempty list returns the arithmetic mean of the per-line scales
`euclideanDistance(start, end) / realLength`. -/
theorem calculateScaleFromLines_spec :
    (∀ dimensionLines : List DimensionLine,
      calculateScaleFromLines dimensionLines = none ↔ dimensionLines = []) ∧
    (∀ dimensionLines : List DimensionLine, dimensionLines ≠ [] →
      calculateScaleFromLines dimensionLines = some (specAverageScale dimensionLines)) := by
  constructor
  · intro dimensionLines
    rcases dimensionLines with - | ⟨line, rest⟩
    · simp [calculateScaleFromLines]
    · simp [calculateScaleFromLines]
  · intro dimensionLines hne
    unfold calculateScaleFromLines
    rw [if_neg (fun h => hne (List.length_eq_zero.mp h))]
    unfold specAverageScale
    dsimp only
    rw [← List.sum_eq_foldl, List.length_map]
    rfl

/-- Witness for C8: reference lines of 100 px / 100 mm and 300 px / 300 mm
average to scale 1. -/
theorem calculateScaleFromLines_spec_witness :
    calculateScaleFromLines
      [⟨⟨0, 0⟩, ⟨100, 0⟩, 100, 800, 600⟩, ⟨⟨0, 0⟩, ⟨0, 300⟩, 300, 800, 600⟩] = some 1 := by
  rw [calculateScaleFromLines_spec.2 _ (by simp)]
  have e1 : calculateLineLength (⟨0, 0⟩ : Position ℝ) ⟨100, 0⟩ = 100 := by
    unfold calculateLineLength
    exact sqrt_eval _ 100 (by norm_num) (by norm_num)
  have e2 : calculateLineLength (⟨0, 0⟩ : Position ℝ) ⟨0, 300⟩ = 300 := by
    unfold calculateLineLength
    exact sqrt_eval _ 300 (by norm_num) (by norm_num)
  norm_num [specAverageScale, e1, e2]

/-- In the two-line branch the two scales are exactly equidistant from their
pairwise average. -/
theorem two_devs_eq (line1 line2 : DimensionLine) :
    |lineScale line1 - (lineScale line1 + lineScale line2) / 2| =
      |lineScale line2 - (lineScale line1 + lineScale line2) / 2| := by
  rw [show lineScale line1 - (lineScale line1 + lineScale line2) / 2 =
      (lineScale line1 - lineScale line2) / 2 by ring,
    show lineScale line2 - (lineScale line1 + lineScale line2) / 2 =
      -((lineScale line1 - lineScale line2) / 2) by ring,
    abs_neg]

/-- Evaluation of the two-line branch when the mismatch exceeds 5 %: since
the two deviations from the pairwise average are equal, the strict
`dev1 > dev2` comparison fails and index 1 is flagged. -/
theorem validate_two_gt (line1 line2 : DimensionLine)
    (h5 : pairMismatchPercent line1 line2 > 5) :
    validateDimensionLines [line1, line2] =
      ⟨false, some 1, some (pairMismatchPercent line1 line2),
        some (.lineIncorrectDifference 1 (pairMismatchPercent line1 line2))⟩ := by
  simp only [validateDimensionLines]
  rw [if_pos h5, if_neg (not_lt.mpr (le_of_eq (two_devs_eq line1 line2)))]

/-- Evaluation of the two-line branch when the mismatch is within 5 %. -/
theorem validate_two_le (line1 line2 : DimensionLine)
    (h5 : ¬pairMismatchPercent line1 line2 > 5) :
    validateDimensionLines [line1, line2] =
      ⟨true, none, some (pairMismatchPercent line1 line2),
        some (if pairMismatchPercent line1 line2 > 1 then
            .linesConsistentDifference (pairMismatchPercent line1 line2)
          else .linesConsistent)⟩ := by
  simp only [validateDimensionLines]
  rw [if_neg h5]

/-- Claim C3: on exactly two lines, `validateDimensionLines` reports
`mismatchPercent = |s1 - s2| / ((s1 + s2) / 2) * 100`; above the 5 %
threshold it is invalid and flags an index (1, line 2) whose deviation from
the pairwise average is maximal, with the "appears to be incorrect" message;
at or below the threshold it is valid with no flagged index, and the
"consistent" message carries the numeric difference exactly when the
mismatch exceeds 1 %. -/
theorem validateDimensionLines_two_spec (line1 line2 : DimensionLine) :
    (validateDimensionLines [line1, line2]).mismatchPercent =
      some (pairMismatchPercent line1 line2) ∧
    (pairMismatchPercent line1 line2 > 5 →
      (validateDimensionLines [line1, line2]).isValid = false ∧
      (validateDimensionLines [line1, line2]).inconsistentLineIndex = some 1 ∧
      (validateDimensionLines [line1, line2]).message =
        some (.lineIncorrectDifference 1 (pairMismatchPercent line1 line2)) ∧
      |lineScale line2 - (lineScale line1 + lineScale line2) / 2| =
        max |lineScale line1 - (lineScale line1 + lineScale line2) / 2|
          |lineScale line2 - (lineScale line1 + lineScale line2) / 2|) ∧
    (¬pairMismatchPercent line1 line2 > 5 →
      (validateDimensionLines [line1, line2]).isValid = true ∧
      (validateDimensionLines [line1, line2]).inconsistentLineIndex = none ∧
      (pairMismatchPercent line1 line2 > 1 →
        (validateDimensionLines [line1, line2]).message =
          some (.linesConsistentDifference (pairMismatchPercent line1 line2))) ∧
      (¬pairMismatchPercent line1 line2 > 1 →
        (validateDimensionLines [line1, line2]).message = some .linesConsistent)) := by
  by_cases h5 : pairMismatchPercent line1 line2 > 5
  · have hv := validate_two_gt line1 line2 h5
    refine ⟨by rw [hv], fun _ => ⟨by rw [hv], by rw [hv], by rw [hv], ?_⟩,
      fun hle => absurd h5 hle⟩
    rw [two_devs_eq line1 line2, max_self]
  · have hv := validate_two_le line1 line2 h5
    refine ⟨by rw [hv], fun hgt => absurd hgt h5, fun _ => ⟨by rw [hv], by rw [hv], ?_, ?_⟩⟩
    · intro h1
      rw [hv, if_pos h1]
    · intro h1
      rw [hv, if_neg h1]

/-- Witness for C3: lines of 100 px / 100 mm and 100 px / 80 mm mismatch by
about 22.2 % > 5 %, so the result is invalid. -/
theorem validateDimensionLines_two_spec_witness :
    pairMismatchPercent ⟨⟨0, 0⟩, ⟨100, 0⟩, 100, 800, 600⟩
        ⟨⟨0, 0⟩, ⟨100, 0⟩, 80, 800, 600⟩ > 5 ∧
    (validateDimensionLines [⟨⟨0, 0⟩, ⟨100, 0⟩, 100, 800, 600⟩,
        ⟨⟨0, 0⟩, ⟨100, 0⟩, 80, 800, 600⟩]).isValid = false := by
  have h1 : lineScale ⟨⟨0, 0⟩, ⟨100, 0⟩, 100, 800, 600⟩ = 1 := by
    rw [lineScale_eval _ 100 (by norm_num) (by norm_num)]
    norm_num
  have h2 : lineScale ⟨⟨0, 0⟩, ⟨100, 0⟩, 80, 800, 600⟩ = 5 / 4 := by
    rw [lineScale_eval _ 100 (by norm_num) (by norm_num)]
    norm_num
  have h5 : pairMismatchPercent ⟨⟨0, 0⟩, ⟨100, 0⟩, 100, 800, 600⟩
      ⟨⟨0, 0⟩, ⟨100, 0⟩, 80, 800, 600⟩ > 5 := by
    show |lineScale _ - lineScale _| / ((lineScale _ + lineScale _) / 2) * 100 > 5
    rw [h1, h2, show |(1:ℝ) - 5 / 4| = 1 / 4 by rw [abs_sub_comm, abs_of_nonneg] <;> norm_num]
    norm_num
  exact ⟨h5, ((validateDimensionLines_two_spec _ _).2.1 h5).1⟩

/-- Claim C10: in the two-line branch, whenever the result is invalid the
flagged index is 1 (the second line) — the two deviations are exactly equal,
so the strict "deviates more" comparison never selects index 0. -/
theorem validateDimensionLines_two_flags_second (line1 line2 : DimensionLine)
    (h : (validateDimensionLines [line1, line2]).isValid = false) :
    (validateDimensionLines [line1, line2]).inconsistentLineIndex = some 1 := by
  by_cases h5 : pairMismatchPercent line1 line2 > 5
  · rw [validate_two_gt line1 line2 h5]
  · rw [validate_two_le line1 line2 h5] at h
    simp at h

/-- Witness for C10: lines of 100 px / 50 mm and 100 px / 100 mm give an
invalid pair, and the flagged index is 1. -/
theorem validateDimensionLines_two_flags_second_witness :
    (validateDimensionLines [⟨⟨0, 0⟩, ⟨100, 0⟩, 50, 800, 600⟩,
        ⟨⟨0, 0⟩, ⟨100, 0⟩, 100, 800, 600⟩]).inconsistentLineIndex = some 1 := by
  have h1 : lineScale ⟨⟨0, 0⟩, ⟨100, 0⟩, 50, 800, 600⟩ = 2 := by
    rw [lineScale_eval _ 100 (by norm_num) (by norm_num)]
    norm_num
  have h2 : lineScale ⟨⟨0, 0⟩, ⟨100, 0⟩, 100, 800, 600⟩ = 1 := by
    rw [lineScale_eval _ 100 (by norm_num) (by norm_num)]
    norm_num
  have h5 : pairMismatchPercent ⟨⟨0, 0⟩, ⟨100, 0⟩, 50, 800, 600⟩
      ⟨⟨0, 0⟩, ⟨100, 0⟩, 100, 800, 600⟩ > 5 := by
    show |lineScale _ - lineScale _| / ((lineScale _ + lineScale _) / 2) * 100 > 5
    rw [h1, h2, show |(2:ℝ) - 1| = 1 by rw [abs_of_nonneg] <;> norm_num]
    norm_num
  exact validateDimensionLines_two_flags_second _ _ (by rw [validate_two_gt _ _ h5])

/-- Evaluation of the multi-line (more than two) branch of
`validateDimensionLines` in terms of the spec-side mean / deviations /
first-maximum data. -/
theorem validate_multi_eq (a b c : DimensionLine) (rest : List DimensionLine) :
    validateDimensionLines (a :: b :: c :: rest) =
      (if multiMaxDeviation (a :: b :: c :: rest) / multiAvgScale (a :: b :: c :: rest) *
          100 > 10 then
        ⟨false, some (multiMaxIndex (a :: b :: c :: rest)),
          some (multiMaxDeviation (a :: b :: c :: rest) /
            multiAvgScale (a :: b :: c :: rest) * 100),
          some (.lineIncorrectDeviation (multiMaxIndex (a :: b :: c :: rest))
            (multiMaxDeviation (a :: b :: c :: rest) /
              multiAvgScale (a :: b :: c :: rest) * 100))⟩
      else
        ⟨true, none,
          some (multiMaxDeviation (a :: b :: c :: rest) /
            multiAvgScale (a :: b :: c :: rest) * 100),
          some (if multiMaxDeviation (a :: b :: c :: rest) /
              multiAvgScale (a :: b :: c :: rest) * 100 > 1 then
              .allLinesConsistentDeviation (multiMaxDeviation (a :: b :: c :: rest) /
                multiAvgScale (a :: b :: c :: rest) * 100)
            else .allLinesConsistent)⟩) := by
  simp only [validateDimensionLines]
  rw [← List.sum_eq_foldl, List.length_map]

/-- Claim C4 (amended): with more than two lines, `validateDimensionLines`
reports the maximum absolute deviation from the mean scale as a percentage of
the mean; it is invalid exactly when that percentage exceeds 10, in which
case the flagged index holds the maximum deviation and every earlier index
holds a strictly different (hence smaller) deviation — i.e. on ties the
earliest-indexed line is flagged. -/
theorem validateDimensionLines_multi_spec (dimensionLines : List DimensionLine)
    (hlen : 3 ≤ dimensionLines.length) :
    (validateDimensionLines dimensionLines).mismatchPercent =
      some (multiMaxDeviation dimensionLines / multiAvgScale dimensionLines * 100) ∧
    ((validateDimensionLines dimensionLines).isValid = false ↔
      multiMaxDeviation dimensionLines / multiAvgScale dimensionLines * 100 > 10) ∧
    (multiMaxDeviation dimensionLines / multiAvgScale dimensionLines * 100 > 10 →
      (validateDimensionLines dimensionLines).inconsistentLineIndex =
        some (multiMaxIndex dimensionLines) ∧
      (multiDeviations dimensionLines)[multiMaxIndex dimensionLines]? =
        some (multiMaxDeviation dimensionLines) ∧
      ∀ j < multiMaxIndex dimensionLines,
        (multiDeviations dimensionLines)[j]? ≠ some (multiMaxDeviation dimensionLines)) ∧
    (¬multiMaxDeviation dimensionLines / multiAvgScale dimensionLines * 100 > 10 →
      (validateDimensionLines dimensionLines).isValid = true ∧
      (validateDimensionLines dimensionLines).inconsistentLineIndex = none) := by
  rcases dimensionLines with - | ⟨a, - | ⟨b, - | ⟨c, rest⟩⟩⟩
  · simp at hlen
  · simp at hlen
  · simp at hlen
  · have hv := validate_multi_eq a b c rest
    have hmem : multiMaxDeviation (a :: b :: c :: rest) ∈
        multiDeviations (a :: b :: c :: rest) := by
      cases hmax0 : (multiDeviations (a :: b :: c :: rest)).max? with
      | none =>
        rw [List.max?_eq_none_iff] at hmax0
        simp [multiDeviations] at hmax0
      | some m =>
        have hm : multiMaxDeviation (a :: b :: c :: rest) = m := by
          show (multiDeviations (a :: b :: c :: rest)).max?.getD 0 = m
          rw [hmax0]
          rfl
        rw [hm]
        exact List.max?_mem max_choice hmax0
    have hget : (multiDeviations (a :: b :: c :: rest))[multiMaxIndex
        (a :: b :: c :: rest)]? = some (multiMaxDeviation (a :: b :: c :: rest)) :=
      List.getElem?_indexOf hmem
    have hbefore : ∀ j < multiMaxIndex (a :: b :: c :: rest),
        (multiDeviations (a :: b :: c :: rest))[j]? ≠
          some (multiMaxDeviation (a :: b :: c :: rest)) := by
      intro j hj hcontra
      have hj2 : j < List.findIdx (· == multiMaxDeviation (a :: b :: c :: rest))
          (multiDeviations (a :: b :: c :: rest)) := hj
      have hjlen : j < (multiDeviations (a :: b :: c :: rest)).length :=
        lt_of_lt_of_le hj List.indexOf_le_length
      have hfalse := List.not_of_lt_findIdx hj2
      rw [List.getElem?_eq_getElem hjlen, Option.some.injEq] at hcontra
      rw [beq_eq_false_iff_ne] at hfalse
      exact hfalse hcontra
    by_cases h10 : multiMaxDeviation (a :: b :: c :: rest) /
        multiAvgScale (a :: b :: c :: rest) * 100 > 10
    · rw [hv, if_pos h10]
      exact ⟨rfl, by simp [h10], fun _ => ⟨rfl, hget, hbefore⟩, fun hle => absurd h10 hle⟩
    · rw [hv, if_neg h10]
      exact ⟨rfl, by simp [h10], fun hgt => absurd hgt h10, fun _ => ⟨rfl, rfl⟩⟩

/-- Concrete evaluation of the spec-side multi-line data on the example
lines with scales 1/2, 3/2 and 1: mean 1, deviations `[1/2, 1/2, 0]`,
maximum 1/2 first attained at index 0. -/
theorem multi_example_eval :
    multiAvgScale [exLineA, exLineB, exLineC] = 1 ∧
    multiDeviations [exLineA, exLineB, exLineC] = [1 / 2, 1 / 2, 0] ∧
    multiMaxDeviation [exLineA, exLineB, exLineC] = 1 / 2 ∧
    multiMaxIndex [exLineA, exLineB, exLineC] = 0 := by
  have hA : lineScale exLineA = 1 / 2 := by
    rw [show lineScale exLineA = lineScale ⟨⟨0, 0⟩, ⟨50, 0⟩, 100, 800, 600⟩ from rfl,
      lineScale_eval _ 50 (by norm_num) (by norm_num)]
    norm_num
  have hB : lineScale exLineB = 3 / 2 := by
    rw [show lineScale exLineB = lineScale ⟨⟨0, 0⟩, ⟨150, 0⟩, 100, 800, 600⟩ from rfl,
      lineScale_eval _ 150 (by norm_num) (by norm_num)]
    norm_num
  have hC : lineScale exLineC = 1 := by
    rw [show lineScale exLineC = lineScale ⟨⟨0, 0⟩, ⟨100, 0⟩, 100, 800, 600⟩ from rfl,
      lineScale_eval _ 100 (by norm_num) (by norm_num)]
    norm_num
  have havg : multiAvgScale [exLineA, exLineB, exLineC] = 1 := by
    simp [multiAvgScale, hA, hB, hC]
    norm_num
  have d1 : |(1:ℝ) / 2 - 1| = 1 / 2 := by
    rw [abs_sub_comm, abs_of_nonneg] <;> norm_num
  have d2 : |(3:ℝ) / 2 - 1| = 1 / 2 := by
    rw [abs_of_nonneg] <;> norm_num
  have d3 : |(1:ℝ) - 1| = 0 := by simp
  have hdevs : multiDeviations [exLineA, exLineB, exLineC] = [1 / 2, 1 / 2, 0] := by
    simp only [multiDeviations, List.map_cons, List.map_nil, hA, hB, hC, havg]
    rw [d1, d2, d3]
  have hmaxd : multiMaxDeviation [exLineA, exLineB, exLineC] = 1 / 2 := by
    have hm : ([1 / 2, 1 / 2, 0] : List ℝ).max? = some (1 / 2) := by
      rw [List.max?_cons', List.foldl_cons, List.foldl_cons, List.foldl_nil, max_self,
        max_eq_left (by norm_num : (0:ℝ) ≤ 1 / 2)]
    simp [multiMaxDeviation, hdevs, hm]
  have hidx : multiMaxIndex [exLineA, exLineB, exLineC] = 0 := by
    simp only [multiMaxIndex, hdevs, hmaxd]
    exact List.indexOf_cons_self _ _
  exact ⟨havg, hdevs, hmaxd, hidx⟩

/-- Witness for C4 on the example lines: the result is invalid and flags the
first index attaining the maximum deviation. -/
theorem validateDimensionLines_multi_spec_witness :
    3 ≤ ([exLineA, exLineB, exLineC] : List DimensionLine).length ∧
    (validateDimensionLines [exLineA, exLineB, exLineC]).isValid = false ∧
    (validateDimensionLines [exLineA, exLineB, exLineC]).inconsistentLineIndex = some 0 := by
  obtain ⟨havg, -, hmaxd, hidx⟩ := multi_example_eval
  have h10 : multiMaxDeviation [exLineA, exLineB, exLineC] /
      multiAvgScale [exLineA, exLineB, exLineC] * 100 > 10 := by
    rw [havg, hmaxd]
    norm_num
  have hs := validateDimensionLines_multi_spec [exLineA, exLineB, exLineC] (by simp)
  refine ⟨by simp, hs.2.1.mpr h10, ?_⟩
  rw [(hs.2.2.1 h10).1, hidx]

/-- Counterexample to C4's tie-break sub-claim: on the example lines exactly
the first two deviations are tied at the maximum, the result is invalid, and
the flagged index is 0 — the earlier of the tied pair, not the later one the
claim predicts. -/
theorem validateDimensionLines_multi_tie_counterexample :
    |lineScale exLineA - multiAvgScale [exLineA, exLineB, exLineC]| =
      |lineScale exLineB - multiAvgScale [exLineA, exLineB, exLineC]| ∧
    |lineScale exLineC - multiAvgScale [exLineA, exLineB, exLineC]| <
      |lineScale exLineA - multiAvgScale [exLineA, exLineB, exLineC]| ∧
    (validateDimensionLines [exLineA, exLineB, exLineC]).isValid = false ∧
    (validateDimensionLines [exLineA, exLineB, exLineC]).inconsistentLineIndex = some 0 ∧
    (validateDimensionLines [exLineA, exLineB, exLineC]).inconsistentLineIndex ≠ some 1 := by
  obtain ⟨havg, hdevs, hmaxd, hidx⟩ := multi_example_eval
  have hA2 : |lineScale exLineA - multiAvgScale [exLineA, exLineB, exLineC]| = 1 / 2 := by
    have := congrArg (fun l => l[0]?) hdevs
    simpa [multiDeviations] using this
  have hB2 : |lineScale exLineB - multiAvgScale [exLineA, exLineB, exLineC]| = 1 / 2 := by
    have := congrArg (fun l => l[1]?) hdevs
    simpa [multiDeviations] using this
  have hC2 : |lineScale exLineC - multiAvgScale [exLineA, exLineB, exLineC]| = 0 := by
    have := congrArg (fun l => l[2]?) hdevs
    simpa [multiDeviations] using this
  have h10 : multiMaxDeviation [exLineA, exLineB, exLineC] /
      multiAvgScale [exLineA, exLineB, exLineC] * 100 > 10 := by
    rw [havg, hmaxd]
    norm_num
  have hv := validate_multi_eq exLineA exLineB exLineC []
  rw [hv, if_pos h10]
  refine ⟨by rw [hA2, hB2], by rw [hA2, hC2]; norm_num, rfl, ?_, ?_⟩
  · show some (multiMaxIndex [exLineA, exLineB, exLineC]) = some 0
    rw [hidx]
  · show some (multiMaxIndex [exLineA, exLineB, exLineC]) ≠ some 1
    rw [hidx]
    simp

/-- Claim C9 (amended): whenever the average scale exists and is nonzero,
the line list is nonempty, and the most recently added line records nonzero
image dimensions, the emitted `ScaleInfo` carries that last line's recorded
`imageWidth` and `imageHeight` as its reference frame (with unit
`millimeters`); a zero recorded dimension instead falls back to the
component's own props. -/
theorem emitScaleInfo_last_line (imageWidth imageHeight : ℝ)
    (dimensionLines : List DimensionLine) (ppm : ℝ) (lastLine : DimensionLine)
    (hcalc : calculateScaleFromLines dimensionLines = some ppm) (hppm : ppm ≠ 0)
    (hlast : dimensionLines.getLast? = some lastLine)
    (hW : lastLine.imageWidth ≠ 0) (hH : lastLine.imageHeight ≠ 0) :
    emitScaleInfo imageWidth imageHeight dimensionLines =
      some ⟨lastLine.imageWidth, lastLine.imageHeight, ppm, millimetersUnit⟩ := by
  have hne : dimensionLines ≠ [] := by
    intro h
    rw [h] at hlast
    simp at hlast
  unfold emitScaleInfo
  rw [hcalc, hlast]
  dsimp only
  rw [if_pos ⟨hppm, List.length_pos.mpr hne⟩, if_neg hW, if_neg hH]

/-- Witness for C9: one 100 px / 100 mm line recorded against an 800×600
displayed image makes the calibrator emit scale 1 with reference frame
800×600, not the component's 1024×768 props. -/
theorem emitScaleInfo_last_line_witness :
    emitScaleInfo 1024 768 [⟨⟨0, 0⟩, ⟨100, 0⟩, 100, 800, 600⟩] =
      some ⟨800, 600, 1, millimetersUnit⟩ := by
  have hs : lineScale ⟨⟨0, 0⟩, ⟨100, 0⟩, 100, 800, 600⟩ = 1 := by
    rw [lineScale_eval _ 100 (by norm_num) (by norm_num)]
    norm_num
  have hc : calculateScaleFromLines [⟨⟨0, 0⟩, ⟨100, 0⟩, 100, 800, 600⟩] = some 1 := by
    unfold calculateScaleFromLines
    rw [if_neg (by simp)]
    simp only [List.map_cons, List.map_nil, List.foldl_cons, List.foldl_nil,
      List.length_cons, List.length_nil, hs]
    norm_num
  exact emitScaleInfo_last_line 1024 768 [⟨⟨0, 0⟩, ⟨100, 0⟩, 100, 800, 600⟩] 1
    ⟨⟨0, 0⟩, ⟨100, 0⟩, 100, 800, 600⟩ hc (by norm_num) (by simp)
    (by norm_num) (by norm_num)

/-- Counterexample to C9 as stated: a line whose recorded image dimensions
are zero (falsy) does not become the reference frame — the component's own
1024×768 props are emitted instead of the line's recorded 0×0. -/
theorem emitScaleInfo_fallback_counterexample :
    emitScaleInfo 1024 768 [⟨⟨0, 0⟩, ⟨100, 0⟩, 100, 0, 0⟩] =
      some ⟨1024, 768, 1, millimetersUnit⟩ ∧
    (⟨⟨0, 0⟩, ⟨100, 0⟩, 100, 0, 0⟩ : DimensionLine).imageWidth = 0 ∧
    (1024:ℝ) ≠ 0 := by
  refine ⟨?_, rfl, by norm_num⟩
  have hs : lineScale ⟨⟨0, 0⟩, ⟨100, 0⟩, 100, 0, 0⟩ = 1 := by
    rw [lineScale_eval _ 100 (by norm_num) (by norm_num)]
    norm_num
  have hc : calculateScaleFromLines [⟨⟨0, 0⟩, ⟨100, 0⟩, 100, 0, 0⟩] = some 1 := by
    unfold calculateScaleFromLines
    rw [if_neg (by simp)]
    simp only [List.map_cons, List.map_nil, List.foldl_cons, List.foldl_nil,
      List.length_cons, List.length_nil, hs]
    norm_num
  unfold emitScaleInfo
  rw [hc]
  dsimp only
  rw [if_pos ⟨by norm_num, by simp⟩, List.getLast?_singleton]
  dsimp only
  rw [if_pos (by norm_num), if_pos (by norm_num)]

end Layout
